import Mathlib

/-!
Verification development for the gintainer container-management core:
the update scheduler's name-filter matching and cron-trigger state machine
(`internal/scheduler/scheduler.go`), the runtime backends' container-update
flow and stats computation (`internal/runtime/docker.go`,
`internal/runtime/podman.go`), and the Caddy reverse-proxy lifecycle manager
(`internal/caddy/caddy.go`).  Strings manipulated byte-wise by the Go code
are modelled as lists of characters.
-/

namespace Gintainer

/-! Section 1: sweep filter matching (`internal/scheduler/scheduler.go`). -/

/-- Helper `containsMiddle(s, substr)`: scans every window
`s[i:i+len(substr)]` for `0 <= i <= len(s)-len(substr)` looking for an
occurrence of `substr`.  When `substr` is longer than `s` the Go loop body
never runs; here the single `i = 0` window test fails on length grounds, so
the results agree. -/
def containsMiddle (s substr : List Char) : Bool :=
  (List.range (s.length - substr.length + 1)).any fun i =>
    decide (List.take substr.length (List.drop i s) = substr)

/-- Helper `contains(s, substr)`: substring test written in the source as
length guard, then equality, prefix window, suffix window, or middle
window. -/
def contains (s substr : List Char) : Bool :=
  decide (substr.length ≤ s.length) &&
    (decide (s = substr) ||
      (decide (substr.length < s.length) &&
        (decide (List.take substr.length s = substr) ||
         decide (List.drop (s.length - substr.length) s = substr) ||
         containsMiddle s substr)))

/-- Function `matchesFilter(name, pattern)`: true when the pattern is empty,
equals the name, or is contained in the name. -/
def matchesFilter (name pattern : List Char) : Bool :=
  decide (pattern.length = 0) || decide (name = pattern) || contains name pattern

/-- Per-container decision taken by the sweep in `runUpdate`: with a
non-empty filter list the container is updated iff some filter matches its
name; with an empty filter list it is always updated. -/
def shouldUpdate (filters : List (List Char)) (name : List Char) : Bool :=
  if 0 < filters.length then filters.any fun f => matchesFilter name f
  else true

/-- Containers selected by one sweep of `runUpdate` over the containers
listed from a backend: exactly those whose name passes `shouldUpdate`;
`UpdateContainer` is invoked on each of them. -/
def sweepTargets (filters : List (List Char)) (names : List (List Char)) :
    List (List Char) :=
  names.filter fun n => shouldUpdate filters n

/-! Section 2: update scheduler state machine
(`internal/scheduler/scheduler.go`). -/

/-- Cron job configuration `models.CronJobConfig`. -/
structure CronJobConfig where
  Schedule : String
  Enabled : Bool
  Filters : List String
deriving DecidableEq

/-- State of the robfig cron registry owned by the scheduler: the registered
entries (id paired with schedule spec) and the id counter.  Whether a
schedule string parses is abstracted by an explicit predicate, since cron
expression parsing is delegated to the library. -/
structure CronState where
  entries : List (Nat × String)
  nextID : Nat
deriving DecidableEq

/-- Model of `cron.AddFunc`: an invalid spec is rejected without touching the
registry; a valid one registers a fresh entry and returns its id, which is
always nonzero. -/
def CronState.addFunc (valid : String → Bool) (c : CronState) (spec : String) :
    Except String (CronState × Nat) :=
  if valid spec then
    .ok ({ entries := c.entries ++ [(c.nextID + 1, spec)],
           nextID := c.nextID + 1 }, c.nextID + 1)
  else .error "invalid schedule"

/-- Model of `cron.Remove`: drop the entry with the given id. -/
def CronState.remove (c : CronState) (id : Nat) : CronState :=
  { c with entries := c.entries.filter fun e => decide (e.1 ≠ id) }

/-- Scheduler state: the cron registry, the stored config pointer and the
current job id (`0` is the Go zero value of `cron.EntryID`, meaning no
job). -/
structure Scheduler where
  cron : CronState
  config : CronJobConfig
  jobID : Nat
deriving DecidableEq

/-- Function `NewScheduler`: fresh cron, default daily schedule, disabled. -/
def NewScheduler : Scheduler :=
  { cron := { entries := [], nextID := 0 }
    config := { Schedule := "0 2 * * *", Enabled := false, Filters := [] }
    jobID := 0 }

/-- Method `Scheduler.UpdateConfig`: remove the existing job if any, store
the new config, then add a new cron job when the new config is enabled.
Returns the new scheduler state together with `some` error message exactly
when `AddFunc` rejected the schedule. -/
def Scheduler.UpdateConfig (valid : String → Bool) (s : Scheduler)
    (config : CronJobConfig) : Scheduler × Option String :=
  let s1 := if s.jobID ≠ 0 then
      { s with cron := s.cron.remove s.jobID, jobID := 0 }
    else s
  let s2 := { s1 with config := config }
  if config.Enabled then
    match s2.cron.addFunc valid config.Schedule with
    | .ok (c, id) => ({ s2 with cron := c, jobID := id }, none)
    | .error e => (s2, some ("failed to add cron job: " ++ e))
  else (s2, none)

/-- Trigger invariant of the scheduler: either no job is registered
(`jobID = 0`) and the cron registry is empty, or exactly the one entry with
id `jobID` is registered. -/
def SchedulerInv (s : Scheduler) : Prop :=
  (s.jobID = 0 ∧ s.cron.entries = []) ∨
    (s.jobID ≠ 0 ∧ ∃ sched, s.cron.entries = [(s.jobID, sched)])

/-! Section 3: runtime backends (`internal/runtime/docker.go`,
`internal/runtime/podman.go`). -/

/-- Engine-level call attempted by `UpdateContainer`, labelled with its
argument. -/
inductive EngineStep where
  | inspect (id : String)
  | pull (image : String)
  | stop (id : String)
  | remove (id : String) (force : Bool)
  | create (name : String)
  | start (id : String)
deriving DecidableEq

/-- Data the Docker variant reads from `ContainerInspect`: the image
reference `inspect.Config.Image` and the original name `inspect.Name`; the
rest of the inspected configuration is carried opaquely into
`ContainerCreate`. -/
structure DockerInspectData where
  image : String
  name : String
deriving DecidableEq

/-- Oracle for the Docker engine API: the outcome of each primitive call as
observed by `DockerRuntime`. -/
structure DockerEngine where
  inspectRes : String → Except String DockerInspectData
  pullRes : String → Except String Unit
  stopRes : String → Except String Unit
  removeRes : String → Bool → Except String Unit
  createRes : DockerInspectData → Except String String
  startRes : String → Except String Unit

/-- Method `DockerRuntime.PullImage`: wraps an engine pull failure. -/
def DockerRuntime.PullImage (e : DockerEngine) (imageName : String) :
    Except String Unit :=
  match e.pullRes imageName with
  | .error err =>
      .error ("failed to pull Docker image " ++ imageName ++ ": " ++ err)
  | .ok _ => .ok ()

/-- Method `DockerRuntime.DeleteContainer`: wraps an engine remove
failure. -/
def DockerRuntime.DeleteContainer (e : DockerEngine) (containerID : String)
    (force : Bool) : Except String Unit :=
  match e.removeRes containerID force with
  | .error err =>
      .error ("failed to delete Docker container " ++ containerID ++ ": " ++ err)
  | .ok _ => .ok ()

/-- Method `DockerRuntime.UpdateContainer`: inspect, pull the latest image,
stop, force-remove, recreate from the inspected configuration, start; each
failing step aborts the rest.  The result is returned together with the
ordered list of engine calls attempted and with the collection of existing
containers (`world`), in which a successful remove deletes the container and
a successful create adds the new one. -/
def DockerRuntime.UpdateContainer (e : DockerEngine) (world : List String)
    (containerID : String) :
    Except String Unit × List EngineStep × List String :=
  match e.inspectRes containerID with
  | .error err =>
      (.error ("failed to inspect container: " ++ err),
        [.inspect containerID], world)
  | .ok ins =>
    match DockerRuntime.PullImage e ins.image with
    | .error err =>
        (.error err, [.inspect containerID, .pull ins.image], world)
    | .ok _ =>
      match e.stopRes containerID with
      | .error err =>
          (.error ("failed to stop container: " ++ err),
            [.inspect containerID, .pull ins.image, .stop containerID], world)
      | .ok _ =>
        match DockerRuntime.DeleteContainer e containerID true with
        | .error err =>
            (.error err,
              [.inspect containerID, .pull ins.image, .stop containerID,
                .remove containerID true], world)
        | .ok _ =>
          let world1 := world.filter fun c => decide (c ≠ containerID)
          match e.createRes ins with
          | .error err =>
              (.error ("failed to create new container: " ++ err),
                [.inspect containerID, .pull ins.image, .stop containerID,
                  .remove containerID true, .create ins.name], world1)
          | .ok newID =>
            match e.startRes newID with
            | .error err =>
                (.error ("failed to start new container: " ++ err),
                  [.inspect containerID, .pull ins.image, .stop containerID,
                    .remove containerID true, .create ins.name, .start newID],
                  newID :: world1)
            | .ok _ =>
                (.ok (),
                  [.inspect containerID, .pull ins.image, .stop containerID,
                    .remove containerID true, .create ins.name, .start newID],
                  newID :: world1)

/-- Data the Podman variant reads from `containers.Inspect`: the image name
and the original container name, fed into a fresh spec generator. -/
structure PodmanInspectData where
  imageName : String
  name : String
deriving DecidableEq

/-- Oracle for the Podman bindings: the outcome of each primitive call as
observed by `PodmanRuntime`.  `createRes` takes the spec generator content,
namely the image name and the container name. -/
structure PodmanEngine where
  inspectRes : String → Except String PodmanInspectData
  pullRes : String → Except String Unit
  stopRes : String → Except String Unit
  removeRes : String → Bool → Except String Unit
  createRes : String → String → Except String String
  startRes : String → Except String Unit

/-- Method `PodmanRuntime.PullImage`: wraps an engine pull failure. -/
def PodmanRuntime.PullImage (e : PodmanEngine) (imageName : String) :
    Except String Unit :=
  match e.pullRes imageName with
  | .error err =>
      .error ("failed to pull Podman image " ++ imageName ++ ": " ++ err)
  | .ok _ => .ok ()

/-- Method `PodmanRuntime.DeleteContainer`: wraps an engine remove
failure. -/
def PodmanRuntime.DeleteContainer (e : PodmanEngine) (containerID : String)
    (force : Bool) : Except String Unit :=
  match e.removeRes containerID force with
  | .error err =>
      .error ("failed to delete Podman container " ++ containerID ++ ": " ++ err)
  | .ok _ => .ok ()

/-- Method `PodmanRuntime.UpdateContainer`: same step order as the Docker
variant; the replacement container is created from a fresh spec generator
holding only the image name and original name. -/
def PodmanRuntime.UpdateContainer (e : PodmanEngine) (world : List String)
    (containerID : String) :
    Except String Unit × List EngineStep × List String :=
  match e.inspectRes containerID with
  | .error err =>
      (.error ("failed to inspect container: " ++ err),
        [.inspect containerID], world)
  | .ok ins =>
    match PodmanRuntime.PullImage e ins.imageName with
    | .error err =>
        (.error err, [.inspect containerID, .pull ins.imageName], world)
    | .ok _ =>
      match e.stopRes containerID with
      | .error err =>
          (.error ("failed to stop container: " ++ err),
            [.inspect containerID, .pull ins.imageName, .stop containerID],
            world)
      | .ok _ =>
        match PodmanRuntime.DeleteContainer e containerID true with
        | .error err =>
            (.error err,
              [.inspect containerID, .pull ins.imageName, .stop containerID,
                .remove containerID true], world)
        | .ok _ =>
          let world1 := world.filter fun c => decide (c ≠ containerID)
          match e.createRes ins.imageName ins.name with
          | .error err =>
              (.error ("failed to create new container: " ++ err),
                [.inspect containerID, .pull ins.imageName, .stop containerID,
                  .remove containerID true, .create ins.name], world1)
          | .ok newID =>
            match e.startRes newID with
            | .error err =>
                (.error ("failed to start new container: " ++ err),
                  [.inspect containerID, .pull ins.imageName,
                    .stop containerID, .remove containerID true,
                    .create ins.name, .start newID], newID :: world1)
            | .ok _ =>
                (.ok (),
                  [.inspect containerID, .pull ins.imageName,
                    .stop containerID, .remove containerID true,
                    .create ins.name, .start newID], newID :: world1)

/-- Unsigned 64-bit subtraction as performed on the raw Docker stats
counters: both operands are `uint64` values, so the difference wraps modulo
`2 ^ 64 = 18446744073709551616` on underflow. -/
def u64sub (a b : Nat) : Nat :=
  (a + 18446744073709551616 - b) % 18446744073709551616

/-- Field `CPUStats.CPUUsage` of the Docker stats response. -/
structure CPUUsageData where
  TotalUsage : Nat
deriving DecidableEq

/-- Fields of `container.StatsResponse.CPUStats` read by the stats code. -/
structure CPUStatsData where
  CPUUsage : CPUUsageData
  SystemUsage : Nat
  OnlineCPUs : Nat
deriving DecidableEq

/-- Fields of `container.StatsResponse` read by `calculateCPUPercent`. -/
structure StatsResponse where
  CPUStats : CPUStatsData
  PreCPUStats : CPUStatsData
deriving DecidableEq

/-- Function `calculateCPUPercent` from `internal/runtime/docker.go`.  The
source subtracts the raw `uint64` counters (wrapping on underflow) and only
then converts them to `float64`; conversions and arithmetic are modelled
over `ℚ`.  The `float64` image of a `uint64` value is positive iff the value
is nonzero, so the branch taken here agrees with the source. -/
def calculateCPUPercent (stats : StatsResponse) : ℚ :=
  let cpuDelta : ℚ :=
    (u64sub stats.CPUStats.CPUUsage.TotalUsage
      stats.PreCPUStats.CPUUsage.TotalUsage : ℚ)
  let systemDelta : ℚ :=
    (u64sub stats.CPUStats.SystemUsage stats.PreCPUStats.SystemUsage : ℚ)
  let cpuCount : ℚ := (stats.CPUStats.OnlineCPUs : ℚ)
  if 0 < systemDelta ∧ 0 < cpuDelta then
    cpuDelta / systemDelta * cpuCount * 100
  else 0

/-- Filtering criteria `models.FilterOptions`. -/
structure FilterOptions where
  Name : String
  Status : String
  Runtime : String
deriving DecidableEq

/-- Pod record `models.PodInfo` (creation time modelled as a natural
number). -/
structure PodInfo where
  ID : String
  Name : String
  Status : String
  Created : Nat
  Containers : List String
  Runtime : String
deriving DecidableEq

/-- Method `DockerRuntime.ListPods`: Docker has no pods, so the result is
the empty list paired with a nil error (`none`) for every filter. -/
def DockerRuntime.ListPods (filterOpts : FilterOptions) :
    List PodInfo × Option String :=
  ([], none)

/-! Section 4: Caddy reverse-proxy lifecycle manager
(`internal/caddy/caddy.go`).  The directory of fragment files is modelled as
an association list from full path to content; `os.MkdirAll` and the file
writes themselves are modelled as succeeding, and running the reload command
is abstracted by its outcome `cmdRes`. -/

/-- Configuration `config.CaddyConfig`. -/
structure CaddyConfig where
  Enabled : Bool
  CaddyfilePath : String
  UseSudo : Bool
  AutoReload : Bool
  CaddyBinaryPath : String
  ReloadMethod : String
deriving DecidableEq

/-- Port mapping `models.PortMapping`. -/
structure PortMapping where
  ContainerPort : Int
  HostPort : Int
  Protocol : String
deriving DecidableEq

/-- Container record `models.ContainerInfo` (labels as an association list,
creation time as a natural number). -/
structure ContainerInfo where
  ID : String
  Name : String
  Image : String
  Status : String
  State : String
  Runtime : String
  Created : Nat
  Labels : List (String × String)
  Ports : List PortMapping
deriving DecidableEq

/-- Go map indexing `labels[key]`, yielding the zero value `""` for a
missing key. -/
def labelGet (labels : List (String × String)) (key : String) : String :=
  match labels.find? (fun l => l.1 == key) with
  | some l => l.2
  | none => ""

/-- File system state: full path mapped to content. -/
abbrev FS := List (String × String)

/-- Model of `os.WriteFile`: replace any previous file at the path. -/
def fsWrite (fs : FS) (name content : String) : FS :=
  (name, content) :: fs.filter fun f => decide (f.1 ≠ name)

/-- Model of `os.ReadFile` and `os.Stat`: look up the path. -/
def fsRead (fs : FS) (name : String) : Option String :=
  (fs.find? fun f => f.1 == name).map fun f => f.2

/-- Model of `os.Remove`: delete the file at the path. -/
def fsRemove (fs : FS) (name : String) : FS :=
  fs.filter fun f => decide (f.1 ≠ name)

/-- Method `Service.getCaddyfilePath`: `filepath.Join` of the configured
directory and `gintainer-<id>.caddy`, modelled as slash concatenation. -/
def getCaddyfilePath (cfg : CaddyConfig) (containerID : String) : String :=
  cfg.CaddyfilePath ++ "/gintainer-" ++ containerID ++ ".caddy"

/-- Method `Service.buildCaddyfileContent`: renders the configuration
fragment for one route with the string-builder sequence of the source. -/
def buildCaddyfileContent (domain port pathPrefix tls : String) : String :=
  let sb := ""
  let sb := sb ++ domain
  let sb := sb ++ " \x7b\n"
  let sb :=
    if tls ≠ "off" then
      if tls = "auto" then sb ++ "\ttls internal\n"
      else sb ++ ("\ttls " ++ tls ++ "\n")
    else sb
  let sb :=
    if pathPrefix ≠ "/" then
      sb ++ ("\thandle_path " ++ pathPrefix ++ "* \x7b\n") ++
        ("\t\treverse_proxy localhost:" ++ port ++ "\n") ++ "\t\x7d\n"
    else sb ++ ("\treverse_proxy localhost:" ++ port ++ "\n")
  sb ++ "\x7d\n"

/-- Method `Service.Reload`: a silent success when the subsystem is
disabled; otherwise the outcome of running the reload command, with a
failure wrapped. -/
def Service.Reload (cfg : CaddyConfig) (cmdRes : Except String Unit) :
    Except String Unit :=
  if ¬cfg.Enabled then .ok ()
  else
    match cmdRes with
    | .error err => .error ("failed to reload Caddy: " ++ err)
    | .ok _ => .ok ()

/-- Method `Service.GenerateCaddyfile` (the `onContainerObserved` hook):
derive the route from the container labels and persist the rendered
fragment.  A disabled subsystem and a missing domain label are silent
no-ops; a missing port is an error; the write is followed by a reload when
auto-reload is configured. -/
def Service.GenerateCaddyfile (cfg : CaddyConfig)
    (cmdRes : Except String Unit) (container : ContainerInfo) (fs : FS) :
    Except String Unit × FS :=
  if ¬cfg.Enabled then (.ok (), fs)
  else
    let domain := labelGet container.Labels "caddy.domain"
    if domain = "" then (.ok (), fs)
    else
      let portStr := labelGet container.Labels "caddy.port"
      let portStr :=
        if portStr = "" ∧ 0 < container.Ports.length then
          match container.Ports with
          | p :: _ => toString p.HostPort
          | [] => portStr
        else portStr
      if portStr = "" then
        (.error "no port configured for Caddy reverse proxy", fs)
      else
        let pathPrefix := labelGet container.Labels "caddy.path"
        let pathPrefix := if pathPrefix = "" then "/" else pathPrefix
        let tls := labelGet container.Labels "caddy.tls"
        let tls := if tls = "" then "auto" else tls
        let caddyfileContent :=
          buildCaddyfileContent domain portStr pathPrefix tls
        let filename := getCaddyfilePath cfg container.ID
        let fs1 := fsWrite fs filename caddyfileContent
        if cfg.AutoReload then (Service.Reload cfg cmdRes, fs1)
        else (.ok (), fs1)

/-- Method `Service.DeleteCaddyfile` (the `onContainerRemoved` hook):
deleting an absent fragment and a disabled subsystem are silent successes;
otherwise remove the file and reload when auto-reload is configured. -/
def Service.DeleteCaddyfile (cfg : CaddyConfig) (cmdRes : Except String Unit)
    (containerID : String) (fs : FS) : Except String Unit × FS :=
  if ¬cfg.Enabled then (.ok (), fs)
  else
    let filename := getCaddyfilePath cfg containerID
    match fsRead fs filename with
    | none => (.ok (), fs)
    | some _ =>
      let fs1 := fsRemove fs filename
      if cfg.AutoReload then (Service.Reload cfg cmdRes, fs1)
      else (.ok (), fs1)

/-- Method `Service.ListCaddyfiles`: success with a nil list when the
subsystem is disabled; otherwise the managed fragment files, namely those
with the `gintainer-` name prefix inside the configured directory. -/
def Service.ListCaddyfiles (cfg : CaddyConfig) (fs : FS) :
    Except String (List String) :=
  if ¬cfg.Enabled then .ok []
  else
    .ok ((fs.filter fun f =>
      (cfg.CaddyfilePath ++ "/gintainer-").isPrefixOf f.1).map fun f => f.1)

/-- Method `Service.GetCaddyfileContent` (`getRouteText`): a distinct error
when the subsystem is disabled; otherwise the stored fragment content, or a
read error when it is absent. -/
def Service.GetCaddyfileContent (cfg : CaddyConfig) (containerID : String)
    (fs : FS) : Except String String :=
  if ¬cfg.Enabled then .error "Caddy integration is not enabled"
  else
    match fsRead fs (getCaddyfilePath cfg containerID) with
    | none => .error "failed to read Caddyfile: file does not exist"
    | some content => .ok content

/-- Method `Service.SetCaddyfileContent` (`setRouteText`): a distinct error
when the subsystem is disabled; otherwise persist the given content and
reload when auto-reload is configured. -/
def Service.SetCaddyfileContent (cfg : CaddyConfig)
    (cmdRes : Except String Unit) (containerID content : String) (fs : FS) :
    Except String Unit × FS :=
  if ¬cfg.Enabled then (.error "Caddy integration is not enabled", fs)
  else
    let fs1 := fsWrite fs (getCaddyfilePath cfg containerID) content
    if cfg.AutoReload then (Service.Reload cfg cmdRes, fs1)
    else (.ok (), fs1)

/-! Concrete instances used to exercise the embedded operations. -/

/-- Validity predicate for the cron parser accepting exactly the schedule
used by the repository's scheduler test. -/
def schedValid : String → Bool := fun spec => decide (spec = "0 */4 * * *")

/-- Scheduler armed by a first successful enabled reconfiguration. -/
def schedArmed : Scheduler :=
  (Scheduler.UpdateConfig schedValid NewScheduler
    { Schedule := "0 */4 * * *", Enabled := true, Filters := [] }).1

/-- The armed scheduler reconfigured with an enabled config whose schedule
is rejected by the parser. -/
def schedAfterInvalid : Scheduler × Option String :=
  Scheduler.UpdateConfig schedValid schedArmed
    { Schedule := "invalid cron", Enabled := true, Filters := ["web"] }

/-- Docker engine oracle whose create call fails and whose other calls
succeed. -/
def dockerCreateFail : DockerEngine where
  inspectRes := fun _ => .ok { image := "img:latest", name := "c1" }
  pullRes := fun _ => .ok ()
  stopRes := fun _ => .ok ()
  removeRes := fun _ _ => .ok ()
  createRes := fun _ => .error "no space"
  startRes := fun _ => .ok ()

/-- Podman engine oracle whose calls all succeed. -/
def podmanAllOk : PodmanEngine where
  inspectRes := fun _ => .ok { imageName := "img:latest", name := "c1" }
  pullRes := fun _ => .ok ()
  stopRes := fun _ => .ok ()
  removeRes := fun _ _ => .ok ()
  createRes := fun _ _ => .ok "newid"
  startRes := fun _ => .ok ()

/-- Stats sample whose system counter decreased between the two reads while
the usage counter increased. -/
def ceStats : StatsResponse where
  CPUStats :=
    { CPUUsage := { TotalUsage := 7 }, SystemUsage := 5, OnlineCPUs := 1 }
  PreCPUStats :=
    { CPUUsage := { TotalUsage := 0 }, SystemUsage := 10, OnlineCPUs := 1 }

/-- Stats sample whose system counter is unchanged between the two reads. -/
def statsEqual : StatsResponse where
  CPUStats :=
    { CPUUsage := { TotalUsage := 5 }, SystemUsage := 10, OnlineCPUs := 2 }
  PreCPUStats :=
    { CPUUsage := { TotalUsage := 3 }, SystemUsage := 10, OnlineCPUs := 2 }

/-- Stats sample with both counters increasing. -/
def statsNormal : StatsResponse where
  CPUStats :=
    { CPUUsage := { TotalUsage := 50 }, SystemUsage := 200, OnlineCPUs := 4 }
  PreCPUStats :=
    { CPUUsage := { TotalUsage := 10 }, SystemUsage := 100, OnlineCPUs := 4 }

/-! Section 5: infix-occurrence machinery used to reason about rendered
fragments, and supporting lemmas. -/

/-- Decomposition of an infix occurrence across an append: the pattern lies
in the left part, in the right part, or straddles the boundary, splitting
into a nonempty suffix of the left part and a nonempty prefix of the right
part. -/
theorem infix_append_cases {α : Type} {p a b : List α}
    (h : p <:+: a ++ b) :
    p <:+: a ∨ p <:+: b ∨
      ∃ k, 0 < k ∧ k < p.length ∧ p.take k <:+ a ∧ p.drop k <+: b := by
  obtain ⟨u, v, huv⟩ := h
  rcases List.append_eq_append_iff.mp huv with ⟨w, hw1, hw2⟩ | ⟨w, hw1, hw2⟩
  · left
    exact ⟨u, w, hw1.symm⟩
  · rcases List.append_eq_append_iff.mp hw1 with ⟨t, ht1, ht2⟩ | ⟨t, ht1, ht2⟩
    · by_cases hw0 : w = []
      · subst hw0
        simp only [List.append_nil] at ht2
        left
        refine ⟨u, [], ?_⟩
        rw [List.append_nil, ht2, ht1]
      · by_cases ht0 : t = []
        · subst ht0
          simp only [List.nil_append] at ht2
          right; left
          refine ⟨[], v, ?_⟩
          rw [List.nil_append, ht2, hw2]
        · right; right
          refine ⟨t.length, List.length_pos.mpr ht0, ?_, ?_, ?_⟩
          · rw [ht2, List.length_append]
            have := List.length_pos.mpr hw0
            omega
          · rw [ht2, List.take_left]
            exact ⟨u, ht1.symm⟩
          · rw [ht2, List.drop_left]
            exact ⟨v, hw2.symm⟩
    · right; left
      refine ⟨t, v, ?_⟩
      rw [hw2, ht2]

/-- Composition principle: a pattern absent from both parts and unable to
straddle the boundary is absent from the append. -/
theorem not_infix_append {p a b : List Char}
    (ha : ¬ p <:+: a) (hb : ¬ p <:+: b)
    (hcross : ∀ k, k < p.length → 0 < k → ¬ p.take k <:+ a) :
    ¬ p <:+: (a ++ b) := by
  intro h
  rcases infix_append_cases h with h1 | h2 | ⟨k, hk0, hk1, hs, _⟩
  · exact ha h1
  · exact hb h2
  · exact hcross k hk1 hk0 hs

/-- Membership is inherited by infixes, contrapositively. -/
theorem not_infix_of_not_mem {x : Char} {p l : List Char}
    (hx : x ∈ p) (hl : x ∉ l) : ¬ p <:+: l :=
  fun h => hl (h.subset hx)

/-- Membership is inherited by suffixes, contrapositively. -/
theorem not_suffix_of_not_mem {x : Char} {p l : List Char}
    (hx : x ∈ p) (hl : x ∉ l) : ¬ p <:+ l :=
  fun h => hl (h.subset hx)

/-- The head of a list belongs to every nonempty take of it. -/
theorem head_mem_take {x : Char} {p : List Char} (h : p.head? = some x)
    {k : Nat} (hk : 0 < k) : x ∈ p.take k := by
  cases p with
  | nil => simp at h
  | cons c cs =>
    cases k with
    | zero => omega
    | succ k =>
      simp only [List.head?_cons, Option.some.injEq] at h
      subst h
      simp [List.take]

/-- The head of a list belongs to it. -/
theorem mem_of_head_eq {x : Char} {p : List Char} (h : p.head? = some x) :
    x ∈ p := by
  cases p with
  | nil => simp at h
  | cons c cs =>
    simp only [List.head?_cons, Option.some.injEq] at h
    subst h
    exact List.mem_cons_self _ _

/-- Composition step for a left part free of the tab character when the
pattern starts with a tab: the pattern can neither occur inside the left
part nor straddle its right boundary. -/
theorem not_infix_append_tabfree {p a b : List Char}
    (hhd : p.head? = some '\t') (ha : '\t' ∉ a) (hb : ¬ p <:+: b) :
    ¬ p <:+: (a ++ b) :=
  not_infix_append (not_infix_of_not_mem (mem_of_head_eq hhd) ha) hb
    (fun _ _ hk0 => not_suffix_of_not_mem (head_mem_take hhd hk0) ha)

/-- Data of the empty string. -/
theorem string_data_nil : ("" : String).data = [] := rfl

/-- Character-level decomposition of the rendered fragment: domain header,
optional TLS directive, proxy directive (path-scoped or unscoped), and
closing brace. -/
theorem build_data_eq (domain port pathPrefix tls : String) :
    (buildCaddyfileContent domain port pathPrefix tls).data =
      domain.data ++ " \x7b\n".data ++
        (if tls ≠ "off" then
          (if tls = "auto" then "\ttls internal\n".data
           else "\ttls ".data ++ tls.data ++ "\n".data)
         else []) ++
        (if pathPrefix ≠ "/" then
          "\thandle_path ".data ++ pathPrefix.data ++ "* \x7b\n".data ++
            "\t\treverse_proxy localhost:".data ++ port.data ++ "\n".data ++
            "\t\x7d\n".data
         else "\treverse_proxy localhost:".data ++ port.data ++ "\n".data) ++
        "\x7d\n".data := by
  unfold buildCaddyfileContent
  split_ifs <;>
    simp [String.data_append, string_data_nil, List.append_assoc]

/-- When the TLS mode is `off` and the variable parts contain no tab
character, the rendered fragment contains no occurrence of a TLS directive,
modelled as the text `tab, t, l, s`. -/
theorem build_off_no_tls (domain port pathPrefix : String)
    (hd : '\t' ∉ domain.data) (hp : '\t' ∉ port.data)
    (hpp : '\t' ∉ pathPrefix.data) :
    ¬ ("\ttls".data <:+:
        (buildCaddyfileContent domain port pathPrefix "off").data) := by
  rw [build_data_eq]
  by_cases hroot : pathPrefix = "/"
  · subst hroot
    simp only [ne_eq, not_true, not_true_eq_false, if_false, List.append_nil,
      List.nil_append, List.append_assoc]
    refine not_infix_append_tabfree (by decide) hd ?_
    refine not_infix_append (by decide) ?_ (by decide)
    refine not_infix_append (by decide) ?_ (by decide)
    refine not_infix_append_tabfree (by decide) hp ?_
    exact not_infix_append (by decide) (by decide) (by decide)
  · simp only [ne_eq, hroot, not_false_eq_true, if_true, not_true,
      not_true_eq_false, if_false, List.append_nil, List.nil_append,
      List.append_assoc]
    refine not_infix_append_tabfree (by decide) hd ?_
    refine not_infix_append (by decide) ?_ (by decide)
    refine not_infix_append (by decide) ?_ (by decide)
    refine not_infix_append_tabfree (by decide) hpp ?_
    refine not_infix_append (by decide) ?_ (by decide)
    refine not_infix_append (by decide) ?_ (by decide)
    refine not_infix_append_tabfree (by decide) hp ?_
    refine not_infix_append (by decide) ?_ (by decide)
    exact not_infix_append (by decide) (by decide) (by decide)


/-! Section 6: supporting lemmas about the embedded definitions. -/

theorem containsMiddle_iff (s substr : List Char) :
    containsMiddle s substr = true ↔
      ∃ i, i + substr.length ≤ s.length ∧
        List.take substr.length (List.drop i s) = substr := by
  unfold containsMiddle
  simp only [List.any_eq_true, List.mem_range, decide_eq_true_eq]
  constructor
  · rintro ⟨i, hi, heq⟩
    refine ⟨i, ?_, heq⟩
    have hlen := congrArg List.length heq
    simp only [List.length_take, List.length_drop] at hlen
    omega
  · rintro ⟨i, hi, heq⟩
    exact ⟨i, by omega, heq⟩

theorem contains_iff (s substr : List Char) :
    contains s substr = true ↔ substr <:+: s := by
  unfold contains
  simp only [Bool.and_eq_true, Bool.or_eq_true, decide_eq_true_eq,
    containsMiddle_iff]
  constructor
  · rintro ⟨hle, heq | ⟨hlt, (hpre | hsuf) | ⟨i, hin, heq⟩⟩⟩
    · exact heq ▸ List.infix_rfl
    · exact (hpre ▸ List.take_prefix substr.length s).isInfix
    · exact (hsuf ▸ List.drop_suffix (s.length - substr.length) s).isInfix
    · refine ⟨List.take i s, List.drop (i + substr.length) s, ?_⟩
      calc List.take i s ++ substr ++ List.drop (i + substr.length) s
          = List.take i s ++ (substr ++ List.drop (i + substr.length) s) := by
            rw [List.append_assoc]
        _ = List.take i s ++
              (List.take substr.length (List.drop i s) ++
                List.drop substr.length (List.drop i s)) := by
            rw [heq, List.drop_drop]
        _ = List.take i s ++ List.drop i s := by rw [List.take_append_drop]
        _ = s := List.take_append_drop i s
  · intro h
    obtain ⟨u, v, huv⟩ := h
    have hlen := congrArg List.length huv
    simp only [List.length_append] at hlen
    refine ⟨by omega, ?_⟩
    by_cases hseq : s = substr
    · exact Or.inl hseq
    · have hne : 0 < u.length + v.length := by
        by_contra h0
        push_neg at h0
        have hu : u = [] := List.eq_nil_of_length_eq_zero (by omega)
        have hv : v = [] := List.eq_nil_of_length_eq_zero (by omega)
        apply hseq
        rw [← huv, hu, hv]
        simp
      refine Or.inr ⟨by omega, Or.inr ⟨u.length, by omega, ?_⟩⟩
      rw [← huv, List.append_assoc, List.drop_left, List.take_left]

theorem matchesFilter_iff (name pattern : List Char) :
    matchesFilter name pattern = true ↔ pattern <:+: name := by
  unfold matchesFilter
  simp only [Bool.or_eq_true, decide_eq_true_eq, contains_iff]
  constructor
  · rintro ((h0 | heq) | h)
    · rw [List.length_eq_zero.mp h0]
      exact List.nil_infix
    · subst heq
      exact List.infix_rfl
    · exact h
  · intro h
    exact Or.inr h

/-- After the removal phase of `UpdateConfig` the registry of a scheduler
satisfying the invariant is empty and the job id is cleared. -/
theorem updateConfig_removal (s : Scheduler) (hInv : SchedulerInv s) :
    (if s.jobID ≠ 0 then
        { s with cron := s.cron.remove s.jobID, jobID := 0 }
      else s).cron.entries = [] ∧
    (if s.jobID ≠ 0 then
        { s with cron := s.cron.remove s.jobID, jobID := 0 }
      else s).jobID = 0 := by
  rcases hInv with ⟨h0, he⟩ | ⟨h0, sched, he⟩
  · simp [h0, he]
  · simp [h0, CronState.remove, he]

/-- Shape of a single `UpdateConfig` step from any state satisfying the
invariant: the invariant is preserved, and a successful enabled transition
registers exactly one entry carrying the new schedule. -/
theorem updateConfig_shape (valid : String → Bool) (s : Scheduler)
    (cfg : CronJobConfig) (hInv : SchedulerInv s) :
    SchedulerInv (Scheduler.UpdateConfig valid s cfg).1 ∧
      (cfg.Enabled = true → valid cfg.Schedule = true →
        (Scheduler.UpdateConfig valid s cfg).1.jobID ≠ 0 ∧
        (Scheduler.UpdateConfig valid s cfg).1.cron.entries =
          [((Scheduler.UpdateConfig valid s cfg).1.jobID, cfg.Schedule)]) := by
  obtain ⟨he1, hj1⟩ := updateConfig_removal s hInv
  simp only [ne_eq, ite_not] at he1 hj1
  simp only [Scheduler.UpdateConfig, CronState.addFunc, ne_eq, ite_not]
  rcases hen : cfg.Enabled with _ | _ <;>
    simp only [hen, Bool.false_eq_true, if_false, if_true]
  · constructor
    · exact Or.inl ⟨hj1, he1⟩
    · intro h _
      simp_all
  · rcases hval : valid cfg.Schedule with _ | _ <;>
      simp only [hval, Bool.false_eq_true, if_false, if_true]
    · constructor
      · exact Or.inl ⟨hj1, he1⟩
      · intro _ h
        simp_all
    · refine ⟨Or.inr ⟨by simp, cfg.Schedule, by simp [he1]⟩,
        fun _ _ => ⟨by simp, by simp [he1]⟩⟩


/-- Wrapped subtraction of equal counters is zero. -/
theorem u64sub_self (a : Nat) : u64sub a a = 0 := by
  unfold u64sub
  omega

/-- Wrapped subtraction agrees with true subtraction when the counter
increased. -/
theorem u64sub_of_lt {a b : Nat} (h : b < a)
    (ha : a < 18446744073709551616) : u64sub a b = a - b := by
  unfold u64sub
  omega

/-- Wrapped subtraction of a decreased counter yields the wrapped (large
positive) value, not a negative one. -/
theorem u64sub_wrap {a b : Nat} (h : a < b)
    (hb : b < 18446744073709551616) :
    u64sub a b = a + 18446744073709551616 - b := by
  unfold u64sub
  omega

/-- Characterisation of the sweep's per-container decision: update exactly
when the filter list is empty or some pattern occurs inside the name. -/
theorem shouldUpdate_iff (filters : List (List Char)) (name : List Char) :
    shouldUpdate filters name = true ↔
      (filters = [] ∨ ∃ p ∈ filters, p <:+: name) := by
  unfold shouldUpdate
  rcases filters with _ | ⟨f, fs⟩
  · simp
  · rw [if_pos (by simp)]
    simp [List.any_eq_true, matchesFilter_iff]

/-- Reading back a freshly written file yields the written content. -/
theorem fsRead_fsWrite (fs : FS) (name content : String) :
    fsRead (fsWrite fs name content) name = some content := by
  simp [fsRead, fsWrite]

/-! Section 7: claim theorems. -/

/-- C1 (counterexample): the claim says the sweep updates a container iff
some pattern is a substring of the name or the name is a substring of the
pattern.  With name `app` and non-empty filter list `[app-prod]` the name is
a substring of the pattern, yet the sweep selects no container, so the
name-inside-pattern direction of the claim is false on the code. -/
theorem sweep_filter_bidirectional_ce :
    ("app".data <:+: "app-prod".data) ∧
      sweepTargets ["app-prod".data] ["app".data] = [] := by
  constructor
  · decide
  · decide

/-- C1 (amended): for every filter list and container listing, the sweep
updates a listed container iff the filter list is empty or some pattern
occurs as a substring of the container name; the converse direction
(name occurring inside a pattern) plays no role. -/
theorem sweep_filter_substring :
    ∀ (filters names : List (List Char)) (name : List Char),
      name ∈ sweepTargets filters names ↔
        name ∈ names ∧ (filters = [] ∨ ∃ p ∈ filters, p <:+: name) := by
  intro filters names name
  simp [sweepTargets, List.mem_filter, shouldUpdate_iff]

/-- C10: the sweep's pattern match accepts the empty pattern for every
container name, and a non-empty filter list containing the empty pattern
makes the sweep update every container, disabling filtering. -/
theorem empty_pattern_matches_all :
    (∀ name : List Char, matchesFilter name [] = true) ∧
    (∀ (filters : List (List Char)) (name : List Char), [] ∈ filters →
      shouldUpdate filters name = true) := by
  constructor
  · intro name
    simp [matchesFilter]
  · intro filters name hmem
    rw [shouldUpdate_iff]
    exact Or.inr ⟨[], hmem, List.nil_infix⟩

/-- C10 (witness): the empty pattern matches a concrete name, and a
non-empty filter list containing the empty pattern matches a concrete
container. -/
theorem empty_pattern_matches_all_witness :
    matchesFilter "web-frontend".data [] = true ∧
      shouldUpdate [[], "db".data] "web-frontend".data = true :=
  ⟨empty_pattern_matches_all.1 _,
    empty_pattern_matches_all.2 _ _ (by decide)⟩

/-- C9: the Docker backend's ListPods returns the empty collection and a nil
error for every filter value. -/
theorem docker_listPods_empty (filterOpts : FilterOptions) :
    DockerRuntime.ListPods filterOpts = ([], none) := rfl

/-- C2 (counterexample): reconfiguring an armed scheduler with an enabled
config whose cron schedule is invalid returns an error, but the previous
state is not preserved: the previously armed trigger is deregistered
(job id cleared, registry emptied) and the stored config changed. -/
theorem scheduler_invalid_cron_not_atomic_ce :
    schedAfterInvalid.2.isSome = true ∧
      schedArmed.jobID = 1 ∧
      schedArmed.cron.entries = [(1, "0 */4 * * *")] ∧
      schedAfterInvalid.1.jobID = 0 ∧
      schedAfterInvalid.1.cron.entries = [] ∧
      schedAfterInvalid.1.config ≠ schedArmed.config := by
  refine ⟨?_, ?_, ?_, ?_, ?_, ?_⟩ <;> decide

/-- C2 (amended): reconfiguring with an enabled config whose schedule is
invalid returns an error, but first deregisters any existing trigger and
stores the new config: afterwards no job is armed and the new config is in
effect, so the previous state is not restored. -/
theorem scheduler_invalid_cron_state (valid : String → Bool) (s : Scheduler)
    (cfg : CronJobConfig) (hEn : cfg.Enabled = true)
    (hBad : valid cfg.Schedule = false) :
    (Scheduler.UpdateConfig valid s cfg).2 =
        some "failed to add cron job: invalid schedule" ∧
      (Scheduler.UpdateConfig valid s cfg).1.jobID = 0 ∧
      (Scheduler.UpdateConfig valid s cfg).1.config = cfg ∧
      (Scheduler.UpdateConfig valid s cfg).1.cron =
        (if s.jobID ≠ 0 then s.cron.remove s.jobID else s.cron) := by
  unfold Scheduler.UpdateConfig
  by_cases hj : s.jobID = 0 <;>
    simp [hj, hEn, CronState.addFunc, hBad]

/-- C2 (witness): the amended statement at the armed scheduler and the
concrete invalid config. -/
theorem scheduler_invalid_cron_state_witness :
    (Scheduler.UpdateConfig schedValid schedArmed
        { Schedule := "invalid cron", Enabled := true, Filters := ["web"] }).2 =
        some "failed to add cron job: invalid schedule" ∧
      (Scheduler.UpdateConfig schedValid schedArmed
        { Schedule := "invalid cron", Enabled := true, Filters := ["web"] }).1.jobID = 0 ∧
      (Scheduler.UpdateConfig schedValid schedArmed
        { Schedule := "invalid cron", Enabled := true, Filters := ["web"] }).1.config =
        { Schedule := "invalid cron", Enabled := true, Filters := ["web"] } ∧
      (Scheduler.UpdateConfig schedValid schedArmed
        { Schedule := "invalid cron", Enabled := true, Filters := ["web"] }).1.cron =
        (if schedArmed.jobID ≠ 0 then schedArmed.cron.remove schedArmed.jobID
         else schedArmed.cron) :=
  scheduler_invalid_cron_state schedValid schedArmed _ rfl (by decide)

/-- C3: the scheduler's trigger invariant holds initially and is preserved
by every reconfiguration, the registry never holds more than one entry, and
two consecutive successful enabled reconfigurations leave exactly one
registered trigger. -/
theorem scheduler_single_trigger :
    SchedulerInv NewScheduler ∧
    (∀ (valid : String → Bool) (s : Scheduler) (cfg : CronJobConfig),
      SchedulerInv s →
        SchedulerInv (Scheduler.UpdateConfig valid s cfg).1 ∧
        (Scheduler.UpdateConfig valid s cfg).1.cron.entries.length ≤ 1) ∧
    (∀ (valid : String → Bool) (s : Scheduler) (c1 c2 : CronJobConfig),
      SchedulerInv s → c1.Enabled = true → c2.Enabled = true →
      valid c1.Schedule = true → valid c2.Schedule = true →
      (Scheduler.UpdateConfig valid
          (Scheduler.UpdateConfig valid s c1).1 c2).1.cron.entries.length =
        1) := by
  refine ⟨Or.inl ⟨rfl, rfl⟩, ?_, ?_⟩
  · intro valid s cfg hInv
    obtain ⟨hInv2, _⟩ := updateConfig_shape valid s cfg hInv
    refine ⟨hInv2, ?_⟩
    rcases hInv2 with ⟨_, he⟩ | ⟨_, sched, he⟩ <;> simp [he]
  · intro valid s c1 c2 hInv h1 h2 hv1 hv2
    obtain ⟨hInv2, _⟩ := updateConfig_shape valid s c1 hInv
    obtain ⟨_, hshape⟩ :=
      updateConfig_shape valid (Scheduler.UpdateConfig valid s c1).1 c2 hInv2
    rw [(hshape h2 hv2).2]
    rfl

/-- C3 (witness): after enabling twice in a row with valid schedules from
the initial state, exactly one trigger is registered. -/
theorem scheduler_single_trigger_witness :
    (Scheduler.UpdateConfig (fun _ => true)
        (Scheduler.UpdateConfig (fun _ => true) NewScheduler
          { Schedule := "0 2 * * *", Enabled := true, Filters := [] }).1
        { Schedule := "0 3 * * *", Enabled := true,
          Filters := [] }).1.cron.entries.length = 1 :=
  scheduler_single_trigger.2.2 (fun _ => true) NewScheduler _ _
    (Or.inl ⟨rfl, rfl⟩) rfl rfl rfl rfl

/-- C4: both backend variants perform inspect, pull, stop, force-remove,
create, start in that order; a failing step aborts all later steps and
returns its error; and a create failure after the successful removal leaves
the container absent from the engine with no rollback attempted. -/
theorem updateContainer_step_order :
    (∀ (e : DockerEngine) (world : List String) (cid : String),
      (∀ err, e.inspectRes cid = .error err →
        DockerRuntime.UpdateContainer e world cid =
          (.error ("failed to inspect container: " ++ err),
            [.inspect cid], world)) ∧
      (∀ ins err, e.inspectRes cid = .ok ins →
        e.pullRes ins.image = .error err →
        DockerRuntime.UpdateContainer e world cid =
          (.error ("failed to pull Docker image " ++ ins.image ++ ": " ++ err),
            [.inspect cid, .pull ins.image], world)) ∧
      (∀ ins err, e.inspectRes cid = .ok ins → e.pullRes ins.image = .ok () →
        e.stopRes cid = .error err →
        DockerRuntime.UpdateContainer e world cid =
          (.error ("failed to stop container: " ++ err),
            [.inspect cid, .pull ins.image, .stop cid], world)) ∧
      (∀ ins err, e.inspectRes cid = .ok ins → e.pullRes ins.image = .ok () →
        e.stopRes cid = .ok () → e.removeRes cid true = .error err →
        DockerRuntime.UpdateContainer e world cid =
          (.error ("failed to delete Docker container " ++ cid ++ ": " ++ err),
            [.inspect cid, .pull ins.image, .stop cid, .remove cid true],
            world)) ∧
      (∀ ins err, e.inspectRes cid = .ok ins → e.pullRes ins.image = .ok () →
        e.stopRes cid = .ok () → e.removeRes cid true = .ok () →
        e.createRes ins = .error err →
        DockerRuntime.UpdateContainer e world cid =
          (.error ("failed to create new container: " ++ err),
            [.inspect cid, .pull ins.image, .stop cid, .remove cid true,
              .create ins.name],
            world.filter fun c => decide (c ≠ cid)) ∧
        cid ∉ (DockerRuntime.UpdateContainer e world cid).2.2) ∧
      (∀ ins newID err, e.inspectRes cid = .ok ins →
        e.pullRes ins.image = .ok () → e.stopRes cid = .ok () →
        e.removeRes cid true = .ok () → e.createRes ins = .ok newID →
        e.startRes newID = .error err →
        DockerRuntime.UpdateContainer e world cid =
          (.error ("failed to start new container: " ++ err),
            [.inspect cid, .pull ins.image, .stop cid, .remove cid true,
              .create ins.name, .start newID],
            newID :: world.filter fun c => decide (c ≠ cid))) ∧
      (∀ ins newID, e.inspectRes cid = .ok ins →
        e.pullRes ins.image = .ok () → e.stopRes cid = .ok () →
        e.removeRes cid true = .ok () → e.createRes ins = .ok newID →
        e.startRes newID = .ok () →
        DockerRuntime.UpdateContainer e world cid =
          (.ok (),
            [.inspect cid, .pull ins.image, .stop cid, .remove cid true,
              .create ins.name, .start newID],
            newID :: world.filter fun c => decide (c ≠ cid)))) ∧
    (∀ (e : PodmanEngine) (world : List String) (cid : String),
      (∀ err, e.inspectRes cid = .error err →
        PodmanRuntime.UpdateContainer e world cid =
          (.error ("failed to inspect container: " ++ err),
            [.inspect cid], world)) ∧
      (∀ ins err, e.inspectRes cid = .ok ins →
        e.pullRes ins.imageName = .error err →
        PodmanRuntime.UpdateContainer e world cid =
          (.error
              ("failed to pull Podman image " ++ ins.imageName ++ ": " ++ err),
            [.inspect cid, .pull ins.imageName], world)) ∧
      (∀ ins err, e.inspectRes cid = .ok ins →
        e.pullRes ins.imageName = .ok () → e.stopRes cid = .error err →
        PodmanRuntime.UpdateContainer e world cid =
          (.error ("failed to stop container: " ++ err),
            [.inspect cid, .pull ins.imageName, .stop cid], world)) ∧
      (∀ ins err, e.inspectRes cid = .ok ins →
        e.pullRes ins.imageName = .ok () → e.stopRes cid = .ok () →
        e.removeRes cid true = .error err →
        PodmanRuntime.UpdateContainer e world cid =
          (.error ("failed to delete Podman container " ++ cid ++ ": " ++ err),
            [.inspect cid, .pull ins.imageName, .stop cid, .remove cid true],
            world)) ∧
      (∀ ins err, e.inspectRes cid = .ok ins →
        e.pullRes ins.imageName = .ok () → e.stopRes cid = .ok () →
        e.removeRes cid true = .ok () →
        e.createRes ins.imageName ins.name = .error err →
        PodmanRuntime.UpdateContainer e world cid =
          (.error ("failed to create new container: " ++ err),
            [.inspect cid, .pull ins.imageName, .stop cid, .remove cid true,
              .create ins.name],
            world.filter fun c => decide (c ≠ cid)) ∧
        cid ∉ (PodmanRuntime.UpdateContainer e world cid).2.2) ∧
      (∀ ins newID err, e.inspectRes cid = .ok ins →
        e.pullRes ins.imageName = .ok () → e.stopRes cid = .ok () →
        e.removeRes cid true = .ok () →
        e.createRes ins.imageName ins.name = .ok newID →
        e.startRes newID = .error err →
        PodmanRuntime.UpdateContainer e world cid =
          (.error ("failed to start new container: " ++ err),
            [.inspect cid, .pull ins.imageName, .stop cid, .remove cid true,
              .create ins.name, .start newID],
            newID :: world.filter fun c => decide (c ≠ cid))) ∧
      (∀ ins newID, e.inspectRes cid = .ok ins →
        e.pullRes ins.imageName = .ok () → e.stopRes cid = .ok () →
        e.removeRes cid true = .ok () →
        e.createRes ins.imageName ins.name = .ok newID →
        e.startRes newID = .ok () →
        PodmanRuntime.UpdateContainer e world cid =
          (.ok (),
            [.inspect cid, .pull ins.imageName, .stop cid, .remove cid true,
              .create ins.name, .start newID],
            newID :: world.filter fun c => decide (c ≠ cid)))) := by
  constructor
  · intro e world cid
    refine ⟨?_, ?_, ?_, ?_, ?_, ?_, ?_⟩
    · intro err h1
      simp [DockerRuntime.UpdateContainer, h1]
    · intro ins err h1 h2
      simp [DockerRuntime.UpdateContainer, DockerRuntime.PullImage, h1, h2]
    · intro ins err h1 h2 h3
      simp [DockerRuntime.UpdateContainer, DockerRuntime.PullImage, h1, h2,
        h3]
    · intro ins err h1 h2 h3 h4
      simp [DockerRuntime.UpdateContainer, DockerRuntime.PullImage,
        DockerRuntime.DeleteContainer, h1, h2, h3, h4]
    · intro ins err h1 h2 h3 h4 h5
      constructor
      · simp [DockerRuntime.UpdateContainer, DockerRuntime.PullImage,
          DockerRuntime.DeleteContainer, h1, h2, h3, h4, h5]
      · simp [DockerRuntime.UpdateContainer, DockerRuntime.PullImage,
          DockerRuntime.DeleteContainer, h1, h2, h3, h4, h5,
          List.mem_filter]
    · intro ins newID err h1 h2 h3 h4 h5 h6
      simp [DockerRuntime.UpdateContainer, DockerRuntime.PullImage,
        DockerRuntime.DeleteContainer, h1, h2, h3, h4, h5, h6]
    · intro ins newID h1 h2 h3 h4 h5 h6
      simp [DockerRuntime.UpdateContainer, DockerRuntime.PullImage,
        DockerRuntime.DeleteContainer, h1, h2, h3, h4, h5, h6]
  · intro e world cid
    refine ⟨?_, ?_, ?_, ?_, ?_, ?_, ?_⟩
    · intro err h1
      simp [PodmanRuntime.UpdateContainer, h1]
    · intro ins err h1 h2
      simp [PodmanRuntime.UpdateContainer, PodmanRuntime.PullImage, h1, h2]
    · intro ins err h1 h2 h3
      simp [PodmanRuntime.UpdateContainer, PodmanRuntime.PullImage, h1, h2,
        h3]
    · intro ins err h1 h2 h3 h4
      simp [PodmanRuntime.UpdateContainer, PodmanRuntime.PullImage,
        PodmanRuntime.DeleteContainer, h1, h2, h3, h4]
    · intro ins err h1 h2 h3 h4 h5
      constructor
      · simp [PodmanRuntime.UpdateContainer, PodmanRuntime.PullImage,
          PodmanRuntime.DeleteContainer, h1, h2, h3, h4, h5]
      · simp [PodmanRuntime.UpdateContainer, PodmanRuntime.PullImage,
          PodmanRuntime.DeleteContainer, h1, h2, h3, h4, h5,
          List.mem_filter]
    · intro ins newID err h1 h2 h3 h4 h5 h6
      simp [PodmanRuntime.UpdateContainer, PodmanRuntime.PullImage,
        PodmanRuntime.DeleteContainer, h1, h2, h3, h4, h5, h6]
    · intro ins newID h1 h2 h3 h4 h5 h6
      simp [PodmanRuntime.UpdateContainer, PodmanRuntime.PullImage,
        PodmanRuntime.DeleteContainer, h1, h2, h3, h4, h5, h6]

/-- C4 (witness): a Docker update whose create step fails ends with the
container removed and not recreated, and a fully successful Podman update
runs all six steps in order. -/
theorem updateContainer_step_order_witness :
    (DockerRuntime.UpdateContainer dockerCreateFail ["c1", "c2"] "c1" =
      (.error "failed to create new container: no space",
        [.inspect "c1", .pull "img:latest", .stop "c1", .remove "c1" true,
          .create "c1"],
        ["c1", "c2"].filter fun c => decide (c ≠ "c1")) ∧
      "c1" ∉ (DockerRuntime.UpdateContainer dockerCreateFail
        ["c1", "c2"] "c1").2.2) ∧
    PodmanRuntime.UpdateContainer podmanAllOk ["c1"] "c1" =
      (.ok (),
        [.inspect "c1", .pull "img:latest", .stop "c1", .remove "c1" true,
          .create "c1", .start "newid"],
        "newid" :: (["c1"].filter fun c => decide (c ≠ "c1"))) :=
  ⟨(updateContainer_step_order.1 dockerCreateFail ["c1", "c2"]
      "c1").2.2.2.2.1 { image := "img:latest", name := "c1" } "no space"
      rfl rfl rfl rfl rfl,
    (updateContainer_step_order.2 podmanAllOk ["c1"] "c1").2.2.2.2.2.2
      { imageName := "img:latest", name := "c1" } "newid"
      rfl rfl rfl rfl rfl rfl⟩

/-- C5: when the subsystem is disabled, the lifecycle operations (generate,
delete, reload, list) succeed with no effect on the stored fragments, while
the direct content operations (get, set) fail with the distinct
`not enabled` error. -/
theorem caddy_disabled_asymmetry (cfg : CaddyConfig)
    (cmdRes : Except String Unit) (container : ContainerInfo)
    (cid content : String) (fs : FS) (hdis : cfg.Enabled = false) :
    Service.GenerateCaddyfile cfg cmdRes container fs = (.ok (), fs) ∧
    Service.DeleteCaddyfile cfg cmdRes cid fs = (.ok (), fs) ∧
    Service.Reload cfg cmdRes = .ok () ∧
    Service.ListCaddyfiles cfg fs = .ok [] ∧
    Service.GetCaddyfileContent cfg cid fs =
      .error "Caddy integration is not enabled" ∧
    Service.SetCaddyfileContent cfg cmdRes cid content fs =
      (.error "Caddy integration is not enabled", fs) := by
  simp [Service.GenerateCaddyfile, Service.DeleteCaddyfile, Service.Reload,
    Service.ListCaddyfiles, Service.GetCaddyfileContent,
    Service.SetCaddyfileContent, hdis]

/-- C5 (witness): the disabled semantics at a concrete configuration,
container and file system. -/
theorem caddy_disabled_asymmetry_witness :
    Service.GenerateCaddyfile
        ⟨false, "/etc/caddy/conf.d", false, true, "caddy", "binary"⟩ (.ok ())
        ⟨"abc", "web", "img", "running", "running", "docker", 0, [], []⟩ [] =
      (.ok (), []) ∧
    Service.DeleteCaddyfile
        ⟨false, "/etc/caddy/conf.d", false, true, "caddy", "binary"⟩ (.ok ())
        "abc" [] = (.ok (), []) ∧
    Service.Reload
        ⟨false, "/etc/caddy/conf.d", false, true, "caddy", "binary"⟩
        (.ok ()) = .ok () ∧
    Service.ListCaddyfiles
        ⟨false, "/etc/caddy/conf.d", false, true, "caddy", "binary"⟩ [] =
      .ok [] ∧
    Service.GetCaddyfileContent
        ⟨false, "/etc/caddy/conf.d", false, true, "caddy", "binary"⟩ "abc"
        [] = .error "Caddy integration is not enabled" ∧
    Service.SetCaddyfileContent
        ⟨false, "/etc/caddy/conf.d", false, true, "caddy", "binary"⟩ (.ok ())
        "abc" "content" [] =
      (.error "Caddy integration is not enabled", []) :=
  caddy_disabled_asymmetry _ _ _ _ _ _ rfl

/-- C7: with the subsystem enabled, setting a fragment's content and then
reading it back returns exactly the written text, for every container id,
text, prior file system, configuration and reload outcome. -/
theorem caddy_set_get_roundtrip (cfg : CaddyConfig)
    (cmdRes : Except String Unit) (cid X : String) (fs : FS)
    (hen : cfg.Enabled = true) :
    Service.GetCaddyfileContent cfg cid
      (Service.SetCaddyfileContent cfg cmdRes cid X fs).2 = .ok X := by
  rcases hAR : cfg.AutoReload with _ | _ <;>
    simp [Service.SetCaddyfileContent, Service.GetCaddyfileContent, hen,
      hAR, fsRead_fsWrite]

/-- C7 (witness): the round trip at a concrete enabled configuration. -/
theorem caddy_set_get_roundtrip_witness :
    Service.GetCaddyfileContent
      ⟨true, "/etc/caddy/conf.d", false, false, "caddy", "binary"⟩ "abc"
      (Service.SetCaddyfileContent
        ⟨true, "/etc/caddy/conf.d", false, false, "caddy", "binary"⟩ (.ok ())
        "abc" "custom.example \x7b\n\treverse_proxy localhost:9000\n\x7d\n"
        []).2 =
    .ok "custom.example \x7b\n\treverse_proxy localhost:9000\n\x7d\n" :=
  caddy_set_get_roundtrip _ _ _ _ _ rfl

/-- C6: for every domain, port, path prefix and TLS mode, the rendered
fragment contains no TLS directive when the mode is `off` (for inputs free
of the tab character that introduces directives), contains `tls internal`
when the mode is `auto`, contains `tls` followed by the literal mode value
for any other mode, and wraps the upstream directive in a `handle_path`
block matching `prefix*` exactly when the path prefix is not `/`, emitting
it unscoped otherwise. -/
theorem caddy_fragment_rendering (domain port pathPrefix mode : String) :
    ('\t' ∉ domain.data → '\t' ∉ port.data → '\t' ∉ pathPrefix.data →
      mode = "off" →
      ¬ ("\ttls".data <:+:
          (buildCaddyfileContent domain port pathPrefix mode).data)) ∧
    (mode = "auto" →
      "\ttls internal\n".data <:+:
        (buildCaddyfileContent domain port pathPrefix mode).data) ∧
    (mode ≠ "off" → mode ≠ "auto" →
      ("\ttls " ++ mode ++ "\n").data <:+:
        (buildCaddyfileContent domain port pathPrefix mode).data) ∧
    (pathPrefix ≠ "/" →
      ("\thandle_path " ++ pathPrefix ++ "* \x7b\n" ++
          "\t\treverse_proxy localhost:" ++ port ++ "\n" ++
          "\t\x7d\n").data <:+:
        (buildCaddyfileContent domain port pathPrefix mode).data) ∧
    (pathPrefix = "/" →
      ("\treverse_proxy localhost:" ++ port ++ "\n").data <:+:
        (buildCaddyfileContent domain port pathPrefix mode).data) := by
  refine ⟨?_, ?_, ?_, ?_, ?_⟩
  · intro hd hp hpp hmode
    subst hmode
    exact build_off_no_tls domain port pathPrefix hd hp hpp
  · intro hmode
    subst hmode
    rw [build_data_eq, if_pos (by decide), if_pos rfl]
    refine ⟨domain.data ++ " \x7b\n".data,
      (if pathPrefix ≠ "/" then
        "\thandle_path ".data ++ pathPrefix.data ++ "* \x7b\n".data ++
          "\t\treverse_proxy localhost:".data ++ port.data ++ "\n".data ++
          "\t\x7d\n".data
       else "\treverse_proxy localhost:".data ++ port.data ++ "\n".data) ++
      "\x7d\n".data, ?_⟩
    simp [List.append_assoc]
  · intro h1 h2
    rw [build_data_eq, if_pos h1, if_neg h2]
    refine ⟨domain.data ++ " \x7b\n".data,
      (if pathPrefix ≠ "/" then
        "\thandle_path ".data ++ pathPrefix.data ++ "* \x7b\n".data ++
          "\t\treverse_proxy localhost:".data ++ port.data ++ "\n".data ++
          "\t\x7d\n".data
       else "\treverse_proxy localhost:".data ++ port.data ++ "\n".data) ++
      "\x7d\n".data, ?_⟩
    simp [String.data_append, List.append_assoc]
  · intro h
    rw [build_data_eq, if_pos h]
    refine ⟨domain.data ++ " \x7b\n".data ++
      (if mode ≠ "off" then
        (if mode = "auto" then "\ttls internal\n".data
         else "\ttls ".data ++ mode.data ++ "\n".data)
       else []), "\x7d\n".data, ?_⟩
    simp [String.data_append, List.append_assoc]
  · intro h
    rw [build_data_eq, if_neg (not_not_intro h)]
    refine ⟨domain.data ++ " \x7b\n".data ++
      (if mode ≠ "off" then
        (if mode = "auto" then "\ttls internal\n".data
         else "\ttls ".data ++ mode.data ++ "\n".data)
       else []), "\x7d\n".data, ?_⟩
    simp [String.data_append, List.append_assoc]

/-- C6 (witness): the rendering facts at the concrete inputs used by the
specification's examples. -/
theorem caddy_fragment_rendering_witness :
    (¬ ("\ttls".data <:+:
        (buildCaddyfileContent "example.com" "8080" "/" "off").data)) ∧
    ("\ttls internal\n".data <:+:
      (buildCaddyfileContent "example.com" "8080" "/" "auto").data) ∧
    (("\ttls " ++ "mycert" ++ "\n").data <:+:
      (buildCaddyfileContent "example.com" "8080" "/" "mycert").data) ∧
    (("\thandle_path " ++ "/api" ++ "* \x7b\n" ++
        "\t\treverse_proxy localhost:" ++ "9000" ++ "\n" ++
        "\t\x7d\n").data <:+:
      (buildCaddyfileContent "api.example.com" "9000" "/api" "auto").data) ∧
    (("\treverse_proxy localhost:" ++ "8080" ++ "\n").data <:+:
      (buildCaddyfileContent "example.com" "8080" "/" "auto").data) :=
  ⟨(caddy_fragment_rendering "example.com" "8080" "/" "off").1
      (by decide) (by decide) (by decide) rfl,
    (caddy_fragment_rendering "example.com" "8080" "/" "auto").2.1 rfl,
    (caddy_fragment_rendering "example.com" "8080" "/" "mycert").2.2.1
      (by decide) (by decide),
    (caddy_fragment_rendering "api.example.com" "9000" "/api"
        "auto").2.2.2.1 (by decide),
    (caddy_fragment_rendering "example.com" "8080" "/" "auto").2.2.2.2 rfl⟩

/-- C8 (counterexample): the claim says the CPU percentage is exactly 0
whenever the system-time delta is zero or negative.  On a sample whose
system counter decreased (true delta negative) while the usage counter
increased, the unsigned subtraction wraps to a large positive value and the
function returns a nonzero result. -/
theorem cpu_percent_negative_delta_ce :
    calculateCPUPercent ceStats ≠ 0 ∧
      ceStats.CPUStats.SystemUsage < ceStats.PreCPUStats.SystemUsage := by
  constructor
  · unfold calculateCPUPercent ceStats
    norm_num [u64sub]
  · norm_num [ceStats]

/-- C8 (amended): with all raw counters in `uint64` range, the computation
returns 0 when the system counter is unchanged (or the usage counter is
unchanged), regardless of the other delta; for increasing counters it
returns `(cpuDelta / systemDelta) * onlineCPUs * 100`; but a decreased
system counter wraps to a large positive delta, so with an increasing usage
counter and at least one CPU online the result is nonzero rather than the
claimed 0. -/
theorem cpu_percent_guard (stats : StatsResponse)
    (hb1 : stats.CPUStats.CPUUsage.TotalUsage < 18446744073709551616)
    (hb2 : stats.PreCPUStats.CPUUsage.TotalUsage < 18446744073709551616)
    (hb3 : stats.CPUStats.SystemUsage < 18446744073709551616)
    (hb4 : stats.PreCPUStats.SystemUsage < 18446744073709551616) :
    (stats.CPUStats.SystemUsage = stats.PreCPUStats.SystemUsage →
      calculateCPUPercent stats = 0) ∧
    (stats.CPUStats.CPUUsage.TotalUsage =
        stats.PreCPUStats.CPUUsage.TotalUsage →
      calculateCPUPercent stats = 0) ∧
    (stats.PreCPUStats.SystemUsage < stats.CPUStats.SystemUsage →
      stats.PreCPUStats.CPUUsage.TotalUsage <
        stats.CPUStats.CPUUsage.TotalUsage →
      calculateCPUPercent stats =
        ((stats.CPUStats.CPUUsage.TotalUsage : ℚ) -
            (stats.PreCPUStats.CPUUsage.TotalUsage : ℚ)) /
          ((stats.CPUStats.SystemUsage : ℚ) -
            (stats.PreCPUStats.SystemUsage : ℚ)) *
          (stats.CPUStats.OnlineCPUs : ℚ) * 100) ∧
    (stats.CPUStats.SystemUsage < stats.PreCPUStats.SystemUsage →
      stats.PreCPUStats.CPUUsage.TotalUsage <
        stats.CPUStats.CPUUsage.TotalUsage →
      0 < stats.CPUStats.OnlineCPUs →
      calculateCPUPercent stats ≠ 0) := by
  refine ⟨?_, ?_, ?_, ?_⟩
  · intro h
    unfold calculateCPUPercent
    rw [h, u64sub_self]
    norm_num
  · intro h
    unfold calculateCPUPercent
    rw [h, u64sub_self]
    norm_num
  · intro hs hc
    unfold calculateCPUPercent
    rw [u64sub_of_lt hs hb3, u64sub_of_lt hc hb1]
    rw [if_pos]
    · rw [Nat.cast_sub hs.le, Nat.cast_sub hc.le]
    · exact ⟨Nat.cast_pos.mpr (by omega), Nat.cast_pos.mpr (by omega)⟩
  · intro hs hc hcpu
    unfold calculateCPUPercent
    rw [u64sub_wrap hs hb4, u64sub_of_lt hc hb1]
    rw [if_pos]
    · have h1 : (0 : ℚ) < ((stats.CPUStats.CPUUsage.TotalUsage -
          stats.PreCPUStats.CPUUsage.TotalUsage : Nat) : ℚ) :=
        Nat.cast_pos.mpr (by omega)
      have h2 : (0 : ℚ) < ((stats.CPUStats.SystemUsage +
          18446744073709551616 - stats.PreCPUStats.SystemUsage : Nat) : ℚ) :=
        Nat.cast_pos.mpr (by omega)
      have h3 : (0 : ℚ) < (stats.CPUStats.OnlineCPUs : ℚ) :=
        Nat.cast_pos.mpr hcpu
      have h4 := mul_pos (mul_pos (div_pos h1 h2) h3)
        (by norm_num : (0:ℚ) < 100)
      exact h4.ne'
    · exact ⟨Nat.cast_pos.mpr (by omega), Nat.cast_pos.mpr (by omega)⟩

/-- C8 (witness): the zero case on an unchanged system counter and the
formula case on increasing counters, at concrete samples. -/
theorem cpu_percent_guard_witness :
    calculateCPUPercent statsEqual = 0 ∧
      calculateCPUPercent statsNormal =
        ((50 : ℚ) - 10) / ((200 : ℚ) - 100) * 4 * 100 := by
  constructor
  · exact (cpu_percent_guard statsEqual (by norm_num [statsEqual])
      (by norm_num [statsEqual]) (by norm_num [statsEqual])
      (by norm_num [statsEqual])).1 rfl
  · have h := (cpu_percent_guard statsNormal (by norm_num [statsNormal])
      (by norm_num [statsNormal]) (by norm_num [statsNormal])
      (by norm_num [statsNormal])).2.2.1 (by norm_num [statsNormal])
      (by norm_num [statsNormal])
    simpa [statsNormal] using h

end Gintainer

